import Mathlib

/-!
# Control core of the espresso machine (`src/lib/CoffeeMachine.h`)

A shallow embedding of `CoffeeMachine`: the runtime state, the persisted
configuration record, and the member functions `readTemperature`,
`controlBoiler`, `controlBrew`, `updateGui`, `loop`, `calculateSum`,
`readConfig`, `saveConfig`, `applyConfigChange` and `onSaveTriggered`.

Conventions of the embedding

* Every member function is a function on `Machine`, the object's fields
  together with the state of the collaborators it owns (the two boiler
  delegates, the record held by the persistence medium) and the list of
  collaborator calls made so far (`trace`), oldest first.
* The values returned by the collaborators during one call are supplied in
  a `Readings` record, one field per call site.
* Unsigned 32-bit quantities (`unsigned long`, `uint32_t`) are natural
  numbers reduced modulo `2 ^ 32` where the code can wrap.
* `float` and `double` values are only moved around by this class, never
  computed with; they are carried as their IEEE-754 bit patterns
  (`F32`, `F64`), so that copying preserves them exactly.  The one place
  where a `double` takes part in arithmetic is `now` in `loop`, which holds
  an integer below `2 ^ 32`; it is modelled by that integer (exact for a
  64-bit `double`).
* The `volatile` qualifier and interrupt contexts are outside the model.
-/

namespace CoffeeMachine

/-! ## Constants and plain data types -/

/-- The macro `NO_ERROR`. -/
def NO_ERROR : Nat := 0

/-- The macro `SAMPLE_INTERVAL`, in milliseconds. -/
def SAMPLE_INTERVAL : Nat := 100

/-- Range of a 32-bit unsigned integer. -/
def U32 : Nat := 4294967296

/-- Value kept by a store into a `uint32_t` or `unsigned long`. -/
def wrap32 (n : Nat) : Nat := n % U32

/-- Unsigned 32-bit subtraction `a - b`. -/
def sub32 (a b : Nat) : Nat := (a % U32 + (U32 - b % U32)) % U32

/-- Bit pattern of a `float`. -/
abbrev F32 := Nat

/-- Bit pattern of a `double`. -/
abbrev F64 := Nat

/-- Modelled from the spec: the enumeration `SwitchState_t` is declared in
`SwitchSensor.h`; the data model gives its two values `ON` and `OFF`. -/
inductive SwitchState_t where
  | SWITCH_ON
  | SWITCH_OFF
  deriving DecidableEq, Repr

/-- Logic level passed to `digitalWrite`. -/
inductive PinLevel where
  | LOW
  | HIGH
  deriving DecidableEq, Repr

/-- Modelled from the spec: the page identifiers are declared in `Gui.h`;
`controlBrew` only tells `BREWING_MANUAL` from every other page. -/
inductive Page where
  | BREWING_MANUAL
  | other (id : Nat)
  deriving DecidableEq, Repr

/-- Modelled from the spec: `pidGains: {kp, ki, kd, sampleIntervalMs}`,
declared in `BoilerController.h`. -/
structure PIDParams where
  kp : F64
  ki : F64
  kd : F64
  sampleTime : Nat
  deriving DecidableEq, Repr

/-- Modelled from the spec: `preinfusion: {durationSec, soakSec: u32,
preinfusionBar, brewingBar: f32}`; the field names are the ones
`controlBrew` uses. -/
structure PreinfusionConfig where
  prefinfusionSecs : Nat
  soakSecs : Nat
  bar : F32
  brewingBar : F32
  deriving DecidableEq, Repr

/-- Modelled from the spec: the persisted record `CoffeeMachineConfig_t`,
payload fields followed by the checksum. -/
structure CoffeeMachineConfig where
  targetBrewTemp : Nat
  targetSteamTemp : Nat
  pidParams : PIDParams
  preinfusionConfig : PreinfusionConfig
  crc : Nat
  deriving DecidableEq, Repr

/-- The struct `CoffeeMachineState` (lines 42-53). -/
structure CoffeeMachineState where
  boilerPwm : Int
  currentTemp : F64
  targetTemp : Nat
  tempSensorErrorCode : Nat
  pressure : F32
  brewSwitchState : SwitchState_t
  steamSwitchState : SwitchState_t
  lastEvaluation : Nat
  brewingStart : Nat
  deriving DecidableEq, Repr

/-- One call made to a collaborator, with the arguments passed.  A call
is recorded, not interpreted: what the display does inside `gui.loop()`
is outside the model. -/
inductive Event where
  | millis
  | guiLoop
  | readCelsius
  | sensorFaultCode
  | clearFaultCode
  | steamSwitchIsOn
  | brewSwitchIsOn
  | pidBoilerPwmValue (setpoint : Nat) (measured : F64)
  | steamBoilerPwmValue (setpoint : Nat) (measured : F64)
  | pidChangeControlParams (params : PIDParams)
  | guiGetCurrentPage
  | guiGetManualPressure
  | setDesiredPressure (bar : F32)
  | digitalWrite (pin : Nat) (level : PinLevel)
  | guiSetBoilerState (pwm : Int)
  | guiSetTemperature (temp : F64)
  | guiSetPressure (bar : F32)
  | guiSetBrewSwitchState (s : SwitchState_t)
  | guiGetPidParam
  | guiGetTargetTemperature
  | guiGetTargetSteamTemperature
  | guiGetPreinfusionParams
  | eepromGet
  | eepromPut (record : CoffeeMachineConfig)
  deriving DecidableEq, Repr

/-- The brew-mode delegate `PIDBoilerController`: a controller with internal
state of type `σ`; each operation returns the new internal state. -/
structure PIDBoilerController (σ : Type) where
  boilerPwmValue : σ → Nat → F64 → Int × σ
  changeControlParams : σ → PIDParams → σ

/-- The steam-mode delegate `SteamBoilerController`. -/
structure SteamBoilerController (σ : Type) where
  boilerPwmValue : σ → Nat → F64 → Int × σ

/-- The object `CoffeeMachine` with the collaborators whose state it
changes: `pidController` and `steamController` are the delegates' internal
states, `eeprom` is the record held by the persistence medium at offset 0,
`trace` the collaborator calls made so far. -/
structure Machine (σp σs : Type) where
  boilerSsrPin : Nat
  state : CoffeeMachineState
  config : CoffeeMachineConfig
  pidController : σp
  steamController : σs
  eeprom : CoffeeMachineConfig
  trace : List Event

/-- Modelled from the spec: the return type of `sensorFaultCode()`, declared
in `TemperatureSensor.h`; the interface table gives
`sensorFaultCode() -> int`. -/
abbrev SensorFaultCode := Int

/-- Values returned by the collaborators during one call of `loop`, one
field per call site.  `brewIsOnAgain` is the second `brewSwitch.isOn()` of
`controlBrew`, evaluated only when the first is false; `millisLatch` and
`millisBrew` are the two clock reads of `controlBrew`, `millisLoop` the one
of `loop`. -/
structure Readings where
  millisLoop : Nat
  readCelsius : F64
  sensorFaultCode : SensorFaultCode
  steamIsOn : Bool
  brewIsOn : Bool
  brewIsOnAgain : Bool
  currentPage : Page
  manualPressure : F32
  millisLatch : Nat
  millisBrew : Nat
  deriving DecidableEq, Repr

variable {σp σs : Type}

/-- Record a collaborator call. -/
def Machine.emit (m : Machine σp σs) (e : Event) : Machine σp σs :=
  { m with trace := m.trace ++ [e] }

/-- Replace the runtime state. -/
def Machine.setState (m : Machine σp σs) (s : CoffeeMachineState) : Machine σp σs :=
  { m with state := s }

/-! ## Temperature acquisition and boiler regulation -/

/-- `CoffeeMachine::readTemperature` (lines 194-202).  The fault code is
stored in a `uint8_t`, which keeps its low eight bits. -/
def readTemperature (r : Readings) (m : Machine σp σs) : Machine σp σs :=
  let m := (m.emit .readCelsius).setState { m.state with currentTemp := r.readCelsius }
  let m := (m.emit .sensorFaultCode).setState
    { m.state with tempSensorErrorCode := (r.sensorFaultCode % 256).toNat }
  if m.state.tempSensorErrorCode ≠ NO_ERROR then
    m.emit .clearFaultCode
  else
    m

/-- `CoffeeMachine::controlBoiler` (lines 204-222). -/
def controlBoiler (pidC : PIDBoilerController σp) (steamC : SteamBoilerController σs)
    (r : Readings) (m : Machine σp σs) : Machine σp σs :=
  let m := (m.emit .steamSwitchIsOn).setState
    { m.state with
      steamSwitchState := if r.steamIsOn then .SWITCH_ON else .SWITCH_OFF }
  let res : Int × Machine σp σs :=
    if m.state.tempSensorErrorCode = NO_ERROR then
      if m.state.steamSwitchState = .SWITCH_OFF then
        let m := m.setState { m.state with targetTemp := m.config.targetBrewTemp }
        let out := pidC.boilerPwmValue m.pidController m.config.targetBrewTemp
          m.state.currentTemp
        (out.1, { m.emit (.pidBoilerPwmValue m.config.targetBrewTemp m.state.currentTemp)
                  with pidController := out.2 })
      else
        let m := m.setState { m.state with targetTemp := m.config.targetSteamTemp }
        let out := steamC.boilerPwmValue m.steamController m.config.targetSteamTemp
          m.state.currentTemp
        (out.1, { m.emit (.steamBoilerPwmValue m.config.targetSteamTemp m.state.currentTemp)
                  with steamController := out.2 })
    else
      (0, m)
  res.2.setState { res.2.state with boilerPwm := res.1 }

/-! ## Brew sequencing -/

/-- `CoffeeMachine::controlBrew` (lines 224-272).  `brewSecs` is computed
in unsigned 32-bit arithmetic, and so is the sum of the two durations
(modelled from the spec: both are `u32` fields).  The literal `0` passed to
the pump is the `float` zero, bit pattern `0`. -/
def controlBrew (r : Readings) (m : Machine σp σs) : Machine σp σs :=
  let m := m.emit .brewSwitchIsOn
  if r.brewIsOn then
    let m := m.emit .guiGetCurrentPage
    let m :=
      if r.currentPage = .BREWING_MANUAL then
        let m := (m.emit .guiGetManualPressure).setState
          { m.state with pressure := r.manualPressure }
        m.emit (.setDesiredPressure m.state.pressure)
      else
        let m :=
          if m.state.brewSwitchState ≠ .SWITCH_ON then
            (m.emit .millis).setState { m.state with brewingStart := wrap32 r.millisLatch }
          else
            m
        let m := m.emit .millis
        let brewSecs := sub32 r.millisBrew m.state.brewingStart / 1000
        let pc := m.config.preinfusionConfig
        if brewSecs < pc.prefinfusionSecs then
          (m.emit (.setDesiredPressure pc.bar)).setState { m.state with pressure := pc.bar }
        else if brewSecs < (pc.prefinfusionSecs + pc.soakSecs) % U32 then
          (m.emit (.setDesiredPressure 0)).setState { m.state with pressure := 0 }
        else
          (m.emit (.setDesiredPressure pc.brewingBar)).setState
            { m.state with pressure := pc.brewingBar }
    m.setState { m.state with brewSwitchState := .SWITCH_ON }
  else
    let m := m.emit .brewSwitchIsOn
    if !r.brewIsOnAgain then
      m.setState { m.state with brewSwitchState := .SWITCH_OFF, brewingStart := 0 }
    else
      m

/-- The value of the local `brewSecs` in the automatic branch of
`controlBrew`: whole seconds between the start of the shot (latched in this
call when the recorded switch state is not ON) and the clock read. -/
def brewSecs (r : Readings) (m : Machine σp σs) : Nat :=
  sub32 r.millisBrew
    (if m.state.brewSwitchState ≠ .SWITCH_ON then wrap32 r.millisLatch
     else m.state.brewingStart) / 1000

/-! ## The control cycle -/

/-- `CoffeeMachine::updateGui` (lines 186-192). -/
def updateGui (m : Machine σp σs) : Machine σp σs :=
  let m := m.emit (.guiSetBoilerState m.state.boilerPwm)
  let m := m.emit (.guiSetTemperature m.state.currentTemp)
  let m := m.emit (.guiSetPressure m.state.pressure)
  m.emit (.guiSetBrewSwitchState m.state.brewSwitchState)

/-- `CoffeeMachine::loop` (lines 152-167).  `now` is a `double` holding the
clock value; the comparison is a signed one, on integers. -/
def loop (pidC : PIDBoilerController σp) (steamC : SteamBoilerController σs)
    (r : Readings) (m : Machine σp σs) : Machine σp σs :=
  let now : Int := (wrap32 r.millisLoop : Nat)
  let m := m.emit .millis
  let m := m.emit .guiLoop
  if now - (m.state.lastEvaluation : Int) > (SAMPLE_INTERVAL : Nat) then
    let m := readTemperature r m
    let m := controlBoiler pidC steamC r m
    let m := controlBrew r m
    let m := m.emit
      (.digitalWrite m.boilerSsrPin (if m.state.boilerPwm = 255 then .HIGH else .LOW))
    let m := updateGui m
    m.setState { m.state with lastEvaluation := now.toNat }
  else
    m

/-- The guard of `loop`: the signed difference `now - state.lastEvaluation`
exceeds `SAMPLE_INTERVAL`, where `now` is the clock value read by `loop`. -/
abbrev intervalElapsed (r : Readings) (m : Machine σp σs) : Prop :=
  ((wrap32 r.millisLoop : Nat) : Int) - (m.state.lastEvaluation : Int) > (SAMPLE_INTERVAL : Nat)

/-! ## Configuration store -/

/-- Little-endian bytes of the low `8 * w` bits of `v`. -/
def leBytes : Nat → Nat → List Nat
  | 0, _ => []
  | w + 1, v => v % 256 :: leBytes w (v / 256)

/-- Modelled from the spec: the object representation of the record without
its trailing checksum, `sizeof(configData) - sizeof(configData.crc)` bytes
of the packed little-endian layout `targetBrewTemp, targetSteamTemp: u32`,
`kp, ki, kd: f64`, `sampleTime: u32`, `prefinfusionSecs, soakSecs: u32`,
`bar, brewingBar: f32`. -/
def payloadBytes (c : CoffeeMachineConfig) : List Nat :=
  leBytes 4 c.targetBrewTemp ++ leBytes 4 c.targetSteamTemp ++
  leBytes 8 c.pidParams.kp ++ leBytes 8 c.pidParams.ki ++ leBytes 8 c.pidParams.kd ++
  leBytes 4 c.pidParams.sampleTime ++
  leBytes 4 c.preinfusionConfig.prefinfusionSecs ++ leBytes 4 c.preinfusionConfig.soakSecs ++
  leBytes 4 c.preinfusionConfig.bar ++ leBytes 4 c.preinfusionConfig.brewingBar

/-- Settings of a freshly constructed `CRC32` object of the external CRC
library: polynomial, start and end masks, input and output reflection. -/
structure CRC32 where
  polynome : Nat
  startMask : Nat
  endMask : Nat
  reverseIn : Bool
  reverseOut : Bool
  deriving DecidableEq, Repr

/-- `CRC32::setPolynome`. -/
def CRC32.setPolynome (c : CRC32) (polynome : Nat) : CRC32 :=
  { c with polynome := polynome }

/-- Reversal of the low `w` bits of `v`. -/
def reverseBits : Nat → Nat → Nat
  | 0, _ => 0
  | w + 1, v => (v % 2) * 2 ^ w + reverseBits w (v / 2)

/-- One shift step of the bitwise CRC-32 register. -/
def crcShift (polynome crc : Nat) : Nat :=
  if crc / 2147483648 % 2 = 1 then (crc * 2 % U32) ^^^ polynome else crc * 2 % U32

/-- Feeding one byte to the CRC-32 register. -/
def crcUpdate (c : CRC32) (crc byte : Nat) : Nat :=
  let v := if c.reverseIn then reverseBits 8 byte else byte
  (crcShift c.polynome)^[8] (crc ^^^ (v * 16777216))

/-- `CRC32::add` over a byte array followed by `CRC32::getCRC`. -/
def CRC32.getCRC (c : CRC32) (bytes : List Nat) : Nat :=
  let rv := bytes.foldl (crcUpdate c) (c.startMask % U32)
  ((if c.reverseOut then reverseBits 32 rv else rv) ^^^ c.endMask) % U32

/-- `CoffeeMachine::calculateSum` (lines 290-296); `lib` is the `CRC32`
object as the library constructs it. -/
def calculateSum (lib : CRC32) (configData : CoffeeMachineConfig) : Nat :=
  (lib.setPolynome 0x04C11DB7).getCRC (payloadBytes configData)

/-- `CoffeeMachine::readConfig` (lines 274-282). -/
def readConfig (lib : CRC32) (m : Machine σp σs) : Machine σp σs :=
  let theConfig := m.eeprom
  let m := m.emit .eepromGet
  let crc := calculateSum lib theConfig
  if crc = theConfig.crc then
    { m with config := theConfig }
  else
    m

/-- `CoffeeMachine::saveConfig` (lines 284-288). -/
def saveConfig (lib : CRC32) (m : Machine σp σs) : Machine σp σs :=
  let m := { m with config := { m.config with crc := calculateSum lib m.config } }
  { m.emit (.eepromPut m.config) with eeprom := m.config }

/-- Values held by the display layer when the user applies the settings:
what `getPidParam`, `getTargetTemperature`, `getTargetSteamTemperature` and
`getPreinfusionParams` return. -/
structure GuiSettings where
  pidParam : PIDParams
  targetTemperature : Nat
  targetSteamTemperature : Nat
  preinfusionParams : PreinfusionConfig
  deriving DecidableEq, Repr

/-- `CoffeeMachine::onSaveTriggered` (lines 169-179). -/
def onSaveTriggered (lib : CRC32) (g : GuiSettings) (m : Machine σp σs) : Machine σp σs :=
  let m := { m.emit .guiGetPidParam with config := { m.config with pidParams := g.pidParam } }
  let m := { m with config :=
    { m.config with pidParams := { m.config.pidParams with sampleTime := SAMPLE_INTERVAL } } }
  let m := { m.emit .guiGetTargetTemperature with
    config := { m.config with targetBrewTemp := g.targetTemperature } }
  let m := { m.emit .guiGetTargetSteamTemperature with
    config := { m.config with targetSteamTemp := g.targetSteamTemperature } }
  let m := { m.emit .guiGetPreinfusionParams with
    config := { m.config with preinfusionConfig := g.preinfusionParams } }
  saveConfig lib m

/-- `CoffeeMachine::applyConfigChange` (lines 181-184). -/
def applyConfigChange (pidC : PIDBoilerController σp) (m : Machine σp σs) : Machine σp σs :=
  { m.emit (.pidChangeControlParams m.config.pidParams) with
    pidController := pidC.changeControlParams m.pidController m.config.pidParams }

/-! ## Observations on a trace -/

/-- The `(pin, level)` pairs of the `digitalWrite` calls in a trace. -/
def pinWrites (t : List Event) : List (Nat × PinLevel) :=
  t.filterMap fun e =>
    match e with
    | .digitalWrite pin level => some (pin, level)
    | _ => none

/-- The pressures passed to `setDesiredPressure` in a trace. -/
def pumpCommands (t : List Event) : List F32 :=
  t.filterMap fun e =>
    match e with
    | .setDesiredPressure bar => some bar
    | _ => none

/-- Whether an event is a call to the temperature sensor. -/
def isSensorCall (e : Event) : Bool :=
  match e with
  | .readCelsius => true
  | .sensorFaultCode => true
  | .clearFaultCode => true
  | _ => false

/-- Whether an event is a call to one of the boiler delegates. -/
def isDelegateCall (e : Event) : Bool :=
  match e with
  | .pidBoilerPwmValue _ _ => true
  | .steamBoilerPwmValue _ _ => true
  | .pidChangeControlParams _ => true
  | _ => false

/-! ## Concrete inputs used to exercise the definitions -/

/-- A brew-mode delegate that counts its calls and always asks for full
duty. -/
def fullDutyPid : PIDBoilerController Nat where
  boilerPwmValue := fun s _ _ => (255, s + 1)
  changeControlParams := fun s _ => s

/-- A steam-mode delegate that counts its calls and always asks for full
duty. -/
def fullDutySteam : SteamBoilerController Nat where
  boilerPwmValue := fun s _ _ => (255, s + 1)

/-- A CRC-32 object with zero masks and no reflection. -/
def sampleLib : CRC32 where
  polynome := 0x04C11DB7
  startMask := 0
  endMask := 0
  reverseIn := false
  reverseOut := false

/-- Brew at 93 degrees, steam at 140, preinfusion 5 s at 2 bar, soak 3 s,
then 9 bar (`0x40000000` and `0x41100000` are the floats 2 and 9). -/
def sampleConfig : CoffeeMachineConfig where
  targetBrewTemp := 93
  targetSteamTemp := 140
  pidParams := { kp := 0x4049000000000000, ki := 0, kd := 0, sampleTime := 100 }
  preinfusionConfig :=
    { prefinfusionSecs := 5, soakSecs := 3, bar := 0x40000000, brewingBar := 0x41100000 }
  crc := 0

/-- A runtime state left by a cycle that commanded full duty. -/
def sampleState : CoffeeMachineState where
  boilerPwm := 255
  currentTemp := 0x4056800000000000
  targetTemp := 93
  tempSensorErrorCode := 0
  pressure := 0
  brewSwitchState := .SWITCH_OFF
  steamSwitchState := .SWITCH_OFF
  lastEvaluation := 1000
  brewingStart := 0

/-- A machine on pin 5 in `sampleState` with `sampleConfig`. -/
def sampleMachine : Machine Nat Nat where
  boilerSsrPin := 5
  state := sampleState
  config := sampleConfig
  pidController := 0
  steamController := 0
  eeprom := sampleConfig
  trace := []

/-- Readings of a quiet cycle at 2000 ms: no fault, both switches off. -/
def sampleReadings : Readings where
  millisLoop := 2000
  readCelsius := 0x4056800000000000
  sensorFaultCode := 0
  steamIsOn := false
  brewIsOn := false
  brewIsOnAgain := false
  currentPage := .other 0
  manualPressure := 0x40800000
  millisLatch := 2000
  millisBrew := 2000

/-- The sample machine in the middle of a shot started at 1000 ms. -/
def sampleBrewing : Machine Nat Nat :=
  { sampleMachine with
    state := { sampleState with brewSwitchState := .SWITCH_ON, brewingStart := 1000 } }

/-- Readings with the brew switch on, the display on an automatic page and
the clock of `controlBrew` at `ms`. -/
def brewingAt (ms : Nat) : Readings :=
  { sampleReadings with brewIsOn := true, millisLatch := ms, millisBrew := ms }

/-- The sample machine in the middle of a shot, with a soak time of
`2 ^ 32 - 1` seconds. -/
def longSoakBrewing : Machine Nat Nat :=
  { sampleBrewing with
    config := { sampleConfig with
      preinfusionConfig := { sampleConfig.preinfusionConfig with soakSecs := 4294967295 } } }

/-- Successive calls of `controlBrew`, one per entry of `rs`, oldest
first. -/
def runBrew (rs : List Readings) (m : Machine σp σs) : Machine σp σs :=
  rs.foldl (fun acc r => controlBrew r acc) m

/-- A brew-mode delegate whose internal state is the list of parameter
sets it has received through `changeControlParams`, newest first. -/
def recordingPid : PIDBoilerController (List PIDParams) where
  boilerPwmValue := fun s _ _ => (0, s)
  changeControlParams := fun s p => p :: s

/-- Settings held by the display: new gains with a sample time of 250,
brew at 95 degrees, steam at 145, preinfusion 4 s, soak 2 s. -/
def sampleSettings : GuiSettings where
  pidParam := { kp := 0x4044000000000000, ki := 0x3FF0000000000000, kd := 0, sampleTime := 250 }
  targetTemperature := 95
  targetSteamTemperature := 145
  preinfusionParams :=
    { prefinfusionSecs := 4, soakSecs := 2, bar := 0x40000000, brewingBar := 0x41100000 }

/-- The sample machine with a brew-mode delegate that has received no
parameters yet. -/
def sampleRecording : Machine (List PIDParams) Nat where
  boilerSsrPin := 5
  state := sampleState
  config := sampleConfig
  pidController := []
  steamController := 0
  eeprom := sampleConfig
  trace := []

/-! ## Boiler regulation -/

/-- C1: whenever the runtime state holds a non-zero `tempSensorErrorCode`,
`controlBoiler` leaves `state.boilerPwm` equal to 0, for every current
temperature, steam-switch reading, configuration and pair of delegates. -/
theorem controlBoiler_fault_forces_zero_duty (pidC : PIDBoilerController σp)
    (steamC : SteamBoilerController σs) (r : Readings) (m : Machine σp σs)
    (hfault : m.state.tempSensorErrorCode ≠ 0) :
    (controlBoiler pidC steamC r m).state.boilerPwm = 0 := by
  simp [controlBoiler, Machine.emit, Machine.setState, NO_ERROR, hfault]

/-- C1 at a concrete input: fault code 4, steam switch on, delegates that
would ask for full duty. -/
theorem controlBoiler_fault_forces_zero_duty_witness :
    ({ sampleMachine with
        state := { sampleState with tempSensorErrorCode := 4 } }).state.tempSensorErrorCode ≠ 0 ∧
    (controlBoiler fullDutyPid fullDutySteam { sampleReadings with steamIsOn := true }
      { sampleMachine with
        state := { sampleState with tempSensorErrorCode := 4 } }).state.boilerPwm = 0 :=
  ⟨by decide, controlBoiler_fault_forces_zero_duty fullDutyPid fullDutySteam _ _ (by decide)⟩

/-! ## Frame lemmas for the steps of a cycle -/

theorem pinWrites_append (t u : List Event) : pinWrites (t ++ u) = pinWrites t ++ pinWrites u := by
  simp [pinWrites, List.filterMap_append]

theorem pumpCommands_append (t u : List Event) :
    pumpCommands (t ++ u) = pumpCommands t ++ pumpCommands u := by
  simp [pumpCommands, List.filterMap_append]

theorem readTemperature_errorCode (r : Readings) (m : Machine σp σs) :
    (readTemperature r m).state.tempSensorErrorCode = (r.sensorFaultCode % 256).toNat := by
  unfold readTemperature
  simp only [Machine.emit, Machine.setState]
  split <;> rfl

theorem readTemperature_pin (r : Readings) (m : Machine σp σs) :
    (readTemperature r m).boilerSsrPin = m.boilerSsrPin := by
  unfold readTemperature
  simp only [Machine.emit, Machine.setState]
  split <;> rfl

theorem readTemperature_pinWrites (r : Readings) (m : Machine σp σs) :
    pinWrites (readTemperature r m).trace = pinWrites m.trace := by
  unfold readTemperature
  simp only [Machine.emit, Machine.setState]
  split <;> simp [pinWrites]

theorem controlBoiler_pin (pidC : PIDBoilerController σp) (steamC : SteamBoilerController σs)
    (r : Readings) (m : Machine σp σs) :
    (controlBoiler pidC steamC r m).boilerSsrPin = m.boilerSsrPin := by
  unfold controlBoiler
  simp only [Machine.emit, Machine.setState]
  split <;> (try split) <;> rfl

theorem controlBoiler_pinWrites (pidC : PIDBoilerController σp)
    (steamC : SteamBoilerController σs) (r : Readings) (m : Machine σp σs) :
    pinWrites (controlBoiler pidC steamC r m).trace = pinWrites m.trace := by
  unfold controlBoiler
  simp only [Machine.emit, Machine.setState]
  split <;> (try split) <;> simp [pinWrites]

theorem controlBoiler_fault_boilerPwm (pidC : PIDBoilerController σp)
    (steamC : SteamBoilerController σs) (r : Readings) (m : Machine σp σs)
    (hfault : m.state.tempSensorErrorCode ≠ 0) :
    (controlBoiler pidC steamC r m).state.boilerPwm = 0 := by
  simp [controlBoiler, Machine.emit, Machine.setState, NO_ERROR, hfault]

theorem controlBrew_pin (r : Readings) (m : Machine σp σs) :
    (controlBrew r m).boilerSsrPin = m.boilerSsrPin := by
  unfold controlBrew
  simp only [Machine.emit, Machine.setState]
  split <;> (try split) <;> (try split) <;> (try split) <;> (try split) <;> rfl

theorem controlBrew_boilerPwm (r : Readings) (m : Machine σp σs) :
    (controlBrew r m).state.boilerPwm = m.state.boilerPwm := by
  unfold controlBrew
  simp only [Machine.emit, Machine.setState]
  split <;> (try split) <;> (try split) <;> (try split) <;> (try split) <;> rfl

theorem controlBrew_pinWrites (r : Readings) (m : Machine σp σs) :
    pinWrites (controlBrew r m).trace = pinWrites m.trace := by
  unfold controlBrew
  simp only [Machine.emit, Machine.setState]
  split <;> (try split) <;> (try split) <;> (try split) <;> (try split) <;> simp [pinWrites]

theorem updateGui_pinWrites (m : Machine σp σs) :
    pinWrites (updateGui m).trace = pinWrites m.trace := by
  simp [updateGui, Machine.emit, pinWrites]

theorem loop_elapsed_pinWrites (pidC : PIDBoilerController σp)
    (steamC : SteamBoilerController σs) (r : Readings) (m : Machine σp σs)
    (helapsed : intervalElapsed r m) :
    pinWrites (loop pidC steamC r m).trace =
      pinWrites m.trace ++
        [(m.boilerSsrPin,
          if (controlBoiler pidC steamC r
                (readTemperature r ((m.emit .millis).emit .guiLoop))).state.boilerPwm = 255
          then PinLevel.HIGH else PinLevel.LOW)] := by
  have hcond : ((wrap32 r.millisLoop : Nat) : Int) - (m.state.lastEvaluation : Int)
      > (SAMPLE_INTERVAL : Nat) := helapsed
  unfold loop
  simp only [Machine.emit, hcond, if_true, Machine.setState, updateGui_pinWrites]
  simp only [pinWrites_append, controlBrew_pinWrites, controlBoiler_pinWrites,
    readTemperature_pinWrites, controlBrew_pin, controlBoiler_pin, readTemperature_pin,
    controlBrew_boilerPwm]
  simp [pinWrites]

theorem readTemperature_trace (r : Readings) (m : Machine σp σs) :
    ∃ t, (readTemperature r m).trace = m.trace ++ Event.readCelsius :: t := by
  unfold readTemperature
  simp only [Machine.emit, Machine.setState]
  split
  · exact ⟨[.sensorFaultCode, .clearFaultCode], by simp⟩
  · exact ⟨[.sensorFaultCode], by simp⟩

theorem controlBoiler_trace (pidC : PIDBoilerController σp) (steamC : SteamBoilerController σs)
    (r : Readings) (m : Machine σp σs) :
    ∃ t, (controlBoiler pidC steamC r m).trace = m.trace ++ t := by
  unfold controlBoiler
  simp only [Machine.emit, Machine.setState]
  split <;> (try split) <;> exact ⟨_, by simp only [List.append_assoc]; rfl⟩

theorem controlBrew_trace (r : Readings) (m : Machine σp σs) :
    ∃ t, (controlBrew r m).trace = m.trace ++ t := by
  unfold controlBrew
  simp only [Machine.emit, Machine.setState]
  split <;> (try split) <;> (try split) <;> (try split) <;> (try split) <;>
    exact ⟨_, by simp only [List.append_assoc]; rfl⟩

theorem emit_trace (m : Machine σp σs) (e : Event) : (m.emit e).trace = m.trace ++ [e] := rfl

theorem emit_state (m : Machine σp σs) (e : Event) : (m.emit e).state = m.state := rfl

theorem emit_pin (m : Machine σp σs) (e : Event) : (m.emit e).boilerSsrPin = m.boilerSsrPin := rfl

theorem setState_trace (m : Machine σp σs) (s : CoffeeMachineState) :
    (m.setState s).trace = m.trace := rfl

theorem setState_state (m : Machine σp σs) (s : CoffeeMachineState) :
    (m.setState s).state = s := rfl

theorem loop_elapsed_eq (pidC : PIDBoilerController σp) (steamC : SteamBoilerController σs)
    (r : Readings) (m : Machine σp σs) (helapsed : intervalElapsed r m) :
    loop pidC steamC r m =
      (updateGui
        ((controlBrew r (controlBoiler pidC steamC r
            (readTemperature r ((m.emit .millis).emit .guiLoop)))).emit
          (.digitalWrite
            (controlBrew r (controlBoiler pidC steamC r
              (readTemperature r ((m.emit .millis).emit .guiLoop)))).boilerSsrPin
            (if (controlBrew r (controlBoiler pidC steamC r
                  (readTemperature r ((m.emit .millis).emit .guiLoop)))).state.boilerPwm = 255
              then PinLevel.HIGH else PinLevel.LOW)))).setState
        { (updateGui
            ((controlBrew r (controlBoiler pidC steamC r
                (readTemperature r ((m.emit .millis).emit .guiLoop)))).emit
              (.digitalWrite
                (controlBrew r (controlBoiler pidC steamC r
                  (readTemperature r ((m.emit .millis).emit .guiLoop)))).boilerSsrPin
                (if (controlBrew r (controlBoiler pidC steamC r
                      (readTemperature r ((m.emit .millis).emit .guiLoop)))).state.boilerPwm
                    = 255
                  then PinLevel.HIGH else PinLevel.LOW)))).state with
          lastEvaluation := wrap32 r.millisLoop } := by
  have hcond : ((wrap32 r.millisLoop : Nat) : Int) - (m.state.lastEvaluation : Int)
      > (SAMPLE_INTERVAL : Nat) := helapsed
  unfold loop
  exact if_pos hcond

theorem updateGui_trace (m : Machine σp σs) :
    (updateGui m).trace = m.trace ++
      [.guiSetBoilerState m.state.boilerPwm, .guiSetTemperature m.state.currentTemp,
        .guiSetPressure m.state.pressure, .guiSetBrewSwitchState m.state.brewSwitchState] := by
  simp [updateGui, Machine.emit]

theorem updateGui_state (m : Machine σp σs) : (updateGui m).state = m.state := rfl

theorem loop_elapsed_trace (pidC : PIDBoilerController σp) (steamC : SteamBoilerController σs)
    (r : Readings) (m : Machine σp σs) (helapsed : intervalElapsed r m) :
    ∃ t, (loop pidC steamC r m).trace =
      m.trace ++ Event.millis :: Event.guiLoop :: Event.readCelsius :: t := by
  obtain ⟨t1, h1⟩ := readTemperature_trace r ((m.emit .millis).emit .guiLoop)
  obtain ⟨t2, h2⟩ := controlBoiler_trace pidC steamC r
    (readTemperature r ((m.emit .millis).emit .guiLoop))
  obtain ⟨t3, h3⟩ := controlBrew_trace r
    (controlBoiler pidC steamC r (readTemperature r ((m.emit .millis).emit .guiLoop)))
  rw [loop_elapsed_eq pidC steamC r m helapsed, setState_trace, updateGui_trace, emit_trace,
    h3, h2, h1, emit_trace, emit_trace]
  exact ⟨_, by simp only [List.append_assoc, List.singleton_append, List.cons_append]; rfl⟩

theorem loop_not_elapsed (pidC : PIDBoilerController σp) (steamC : SteamBoilerController σs)
    (r : Readings) (m : Machine σp σs) (hnot : ¬ intervalElapsed r m) :
    loop pidC steamC r m = { m with trace := m.trace ++ [.millis, .guiLoop] } := by
  have hcond : ¬ (((wrap32 r.millisLoop : Nat) : Int) - (m.state.lastEvaluation : Int)
      > (SAMPLE_INTERVAL : Nat)) := hnot
  unfold loop
  simp [Machine.emit, hcond]

/-! ## Fault containment through a whole cycle -/

/-- C2, as the code has it: in every executed control cycle in which the
fault code reported by the sensor has non-zero low eight bits (every code
from 1 to 255 in particular), the only pin write of the cycle is
`digitalWrite(boilerSsrPin, LOW)`, whatever the previous duty, the steam
switch, the temperature and the delegates. -/
theorem loop_fault_writes_heater_low (pidC : PIDBoilerController σp)
    (steamC : SteamBoilerController σs) (r : Readings) (m : Machine σp σs)
    (helapsed : intervalElapsed r m) (hfault : r.sensorFaultCode % 256 ≠ 0) :
    pinWrites (loop pidC steamC r m).trace = pinWrites m.trace ++ [(m.boilerSsrPin, .LOW)] := by
  have hlow : ∀ c : Int, c % 256 ≠ 0 → (c % 256).toNat ≠ 0 := fun c hc => by omega
  have hcode : (r.sensorFaultCode % 256).toNat ≠ 0 := hlow r.sensorFaultCode hfault
  rw [loop_elapsed_pinWrites pidC steamC r m helapsed,
    controlBoiler_fault_boilerPwm pidC steamC r _ (by rw [readTemperature_errorCode]; exact hcode)]
  simp

/-- C2 at a concrete input: fault code 4 with a previous duty of 255 and
delegates that would ask for full duty. -/
theorem loop_fault_writes_heater_low_witness :
    intervalElapsed { sampleReadings with sensorFaultCode := 4 } sampleMachine ∧
    ({ sampleReadings with sensorFaultCode := 4 }).sensorFaultCode % 256 ≠ 0 ∧
    pinWrites (loop fullDutyPid fullDutySteam { sampleReadings with sensorFaultCode := 4 }
      sampleMachine).trace = pinWrites sampleMachine.trace ++ [(sampleMachine.boilerSsrPin, .LOW)] :=
  ⟨by decide, by decide,
    loop_fault_writes_heater_low fullDutyPid fullDutySteam _ _ (by decide) (by decide)⟩

/-- C2 fails as stated: the sensor reports fault code 256, which is not 0;
the `uint8_t` field keeps 0, the delegate is consulted and the heater pin
is written HIGH in that cycle. -/
theorem loop_fault_code_256_writes_heater_high :
    ({ sampleReadings with sensorFaultCode := 256 }).sensorFaultCode ≠ 0 ∧
    intervalElapsed { sampleReadings with sensorFaultCode := 256 } sampleMachine ∧
    pinWrites (loop fullDutyPid fullDutySteam { sampleReadings with sensorFaultCode := 256 }
      sampleMachine).trace = [(5, .HIGH)] := by
  refine ⟨by decide, by decide, by decide⟩

/-! ## Configuration store: integrity check and round trip -/

/-- C3: when the checksum stored in the record differs from `calculateSum`
of that same record, `readConfig` leaves the in-memory configuration as it
was, every field included; the runtime state and the stored record are
untouched as well. -/
theorem readConfig_mismatch_keeps_config (lib : CRC32) (m : Machine σp σs)
    (hbad : m.eeprom.crc ≠ calculateSum lib m.eeprom) :
    (readConfig lib m).config = m.config ∧
    (readConfig lib m).state = m.state ∧
    (readConfig lib m).eeprom = m.eeprom := by
  have hne : ¬ calculateSum lib m.eeprom = m.eeprom.crc := fun h => hbad h.symm
  simp [readConfig, Machine.emit, hne]

/-- C3 at a concrete input: the store holds a record with another brew
target and a checksum field of 1, while the checksum of that record is
1765873939; the in-memory configuration stays `sampleConfig`. -/
theorem readConfig_mismatch_keeps_config_witness :
    ({ sampleConfig with targetBrewTemp := 7, crc := 1 }).crc ≠
      calculateSum sampleLib { sampleConfig with targetBrewTemp := 7, crc := 1 } ∧
    (readConfig sampleLib { sampleMachine with
        eeprom := { sampleConfig with targetBrewTemp := 7, crc := 1 } }).config = sampleConfig :=
  have hsum : calculateSum sampleLib { sampleConfig with targetBrewTemp := 7, crc := 1 }
      = 1765873939 := by
    simp [calculateSum, CRC32.getCRC, CRC32.setPolynome, payloadBytes, leBytes, sampleLib,
      sampleConfig, crcUpdate, crcShift, U32]
  ⟨by rw [hsum]; decide,
    (readConfig_mismatch_keeps_config sampleLib
      { sampleMachine with eeprom := { sampleConfig with targetBrewTemp := 7, crc := 1 } }
      (by rw [hsum]; decide)).1⟩

/-- C4: `saveConfig` on a machine holding `cfg`, followed by `readConfig` on
a machine whose in-memory configuration is any `prior`, passes the
integrity check (the stored checksum equals `calculateSum` of the stored
record) and yields a configuration with every payload field of `cfg` and
`crc = calculateSum cfg`. -/
theorem saveConfig_readConfig_roundtrip (lib : CRC32) (m : Machine σp σs)
    (prior : CoffeeMachineConfig) :
    calculateSum lib (saveConfig lib m).eeprom = (saveConfig lib m).eeprom.crc ∧
    (readConfig lib { saveConfig lib m with config := prior }).config =
      { m.config with crc := calculateSum lib m.config } ∧
    (readConfig lib { saveConfig lib m with config := prior }).config.targetBrewTemp =
      m.config.targetBrewTemp ∧
    (readConfig lib { saveConfig lib m with config := prior }).config.targetSteamTemp =
      m.config.targetSteamTemp ∧
    (readConfig lib { saveConfig lib m with config := prior }).config.pidParams =
      m.config.pidParams ∧
    (readConfig lib { saveConfig lib m with config := prior }).config.preinfusionConfig =
      m.config.preinfusionConfig ∧
    (readConfig lib { saveConfig lib m with config := prior }).config.crc =
      calculateSum lib m.config := by
  have hsum : calculateSum lib { m.config with crc := calculateSum lib m.config }
      = calculateSum lib m.config := by
    simp [calculateSum, payloadBytes]
  simp [readConfig, saveConfig, Machine.emit, hsum]

/-! ## Brew sequencing: the automatic phases -/

/-- The pump command of the automatic branch, as `controlBrew` selects it. -/
theorem controlBrew_auto_command (r : Readings) (m : Machine σp σs)
    (hOn : r.brewIsOn = true) (hAuto : r.currentPage ≠ .BREWING_MANUAL) :
    pumpCommands (controlBrew r m).trace = pumpCommands m.trace ++
      [if brewSecs r m < m.config.preinfusionConfig.prefinfusionSecs then
          m.config.preinfusionConfig.bar
        else if brewSecs r m < (m.config.preinfusionConfig.prefinfusionSecs +
            m.config.preinfusionConfig.soakSecs) % U32 then 0
        else m.config.preinfusionConfig.brewingBar] ∧
    (controlBrew r m).state.pressure =
      (if brewSecs r m < m.config.preinfusionConfig.prefinfusionSecs then
          m.config.preinfusionConfig.bar
        else if brewSecs r m < (m.config.preinfusionConfig.prefinfusionSecs +
            m.config.preinfusionConfig.soakSecs) % U32 then 0
        else m.config.preinfusionConfig.brewingBar) := by
  unfold controlBrew brewSecs
  simp only [Machine.emit, Machine.setState, hOn, hAuto, if_true, if_false]
  by_cases hsw : m.state.brewSwitchState = .SWITCH_ON
  · simp only [hsw, ne_eq, not_true_eq_false, if_false]
    split <;> (try split) <;> simp [pumpCommands]
  · simp only [hsw, ne_eq, not_false_eq_true, if_true]
    split <;> (try split) <;> simp [pumpCommands]

/-- C5, as the code has it: with the brew switch ON and the display not on
the manual page, `controlBrew` sends the pump exactly one command and
records it in `state.pressure`: `bar` if `e < P`; `0` if `P ≤ e < P + S`,
provided `P + S` is below `2 ^ 32` (the code compares `e` with the 32-bit
sum); `brewingBar` if `P + S ≤ e`.  Here `e` is the elapsed brew time in
whole seconds (`brewSecs`). -/
theorem controlBrew_auto_phases (r : Readings) (m : Machine σp σs)
    (hOn : r.brewIsOn = true) (hAuto : r.currentPage ≠ .BREWING_MANUAL) :
    (brewSecs r m < m.config.preinfusionConfig.prefinfusionSecs →
      pumpCommands (controlBrew r m).trace =
        pumpCommands m.trace ++ [m.config.preinfusionConfig.bar] ∧
      (controlBrew r m).state.pressure = m.config.preinfusionConfig.bar) ∧
    (m.config.preinfusionConfig.prefinfusionSecs +
        m.config.preinfusionConfig.soakSecs < U32 →
      m.config.preinfusionConfig.prefinfusionSecs ≤ brewSecs r m →
      brewSecs r m < m.config.preinfusionConfig.prefinfusionSecs +
        m.config.preinfusionConfig.soakSecs →
      pumpCommands (controlBrew r m).trace = pumpCommands m.trace ++ [0] ∧
      (controlBrew r m).state.pressure = 0) ∧
    (m.config.preinfusionConfig.prefinfusionSecs +
        m.config.preinfusionConfig.soakSecs ≤ brewSecs r m →
      pumpCommands (controlBrew r m).trace =
        pumpCommands m.trace ++ [m.config.preinfusionConfig.brewingBar] ∧
      (controlBrew r m).state.pressure = m.config.preinfusionConfig.brewingBar) := by
  have hcmd := controlBrew_auto_command r m hOn hAuto
  refine ⟨fun h1 => ?_, fun hsum h1 h2 => ?_, fun h1 => ?_⟩
  · simpa [h1] using hcmd
  · rw [Nat.mod_eq_of_lt hsum] at hcmd
    have h3 : ¬ brewSecs r m < m.config.preinfusionConfig.prefinfusionSecs := by omega
    simpa [h3, h2] using hcmd
  · have h3 : ¬ brewSecs r m < m.config.preinfusionConfig.prefinfusionSecs := by omega
    have hle := Nat.mod_le (m.config.preinfusionConfig.prefinfusionSecs +
      m.config.preinfusionConfig.soakSecs) U32
    have h4 : ¬ brewSecs r m < (m.config.preinfusionConfig.prefinfusionSecs +
        m.config.preinfusionConfig.soakSecs) % U32 := by omega
    simpa [h3, h4] using hcmd

/-- C5 on the worked example: `P = 5`, `S = 3`, `bar = 2`, `brewingBar = 9`
(bit patterns `0x40000000`, `0x41100000`); elapsed times 0, 4, 6 and 9
seconds give the commands 2, 2, 0 and 9. -/
theorem controlBrew_auto_phases_witness :
    (brewSecs (brewingAt 1000) sampleBrewing = 0 ∧
      pumpCommands (controlBrew (brewingAt 1000) sampleBrewing).trace = [0x40000000]) ∧
    (brewSecs (brewingAt 5999) sampleBrewing = 4 ∧
      pumpCommands (controlBrew (brewingAt 5999) sampleBrewing).trace = [0x40000000]) ∧
    (brewSecs (brewingAt 7000) sampleBrewing = 6 ∧
      pumpCommands (controlBrew (brewingAt 7000) sampleBrewing).trace = [0]) ∧
    (brewSecs (brewingAt 10000) sampleBrewing = 9 ∧
      pumpCommands (controlBrew (brewingAt 10000) sampleBrewing).trace = [0x41100000]) :=
  ⟨⟨by decide, ((controlBrew_auto_phases (brewingAt 1000) sampleBrewing rfl (by decide)).1
      (by decide)).1⟩,
   ⟨by decide, ((controlBrew_auto_phases (brewingAt 5999) sampleBrewing rfl (by decide)).1
      (by decide)).1⟩,
   ⟨by decide, ((controlBrew_auto_phases (brewingAt 7000) sampleBrewing rfl (by decide)).2.1
      (by decide) (by decide) (by decide)).1⟩,
   ⟨by decide, ((controlBrew_auto_phases (brewingAt 10000) sampleBrewing rfl (by decide)).2.2
      (by decide)).1⟩⟩

/-- C5 fails as stated: with `P = 5` and `S = 2 ^ 32 - 1` the 32-bit sum
wraps to 4; at `e = 6`, where `P ≤ e < P + S`, the pump is sent
`brewingBar` and not 0. -/
theorem controlBrew_soak_sum_wraps :
    (brewingAt 7000).brewIsOn = true ∧
    (brewingAt 7000).currentPage ≠ .BREWING_MANUAL ∧
    brewSecs (brewingAt 7000) longSoakBrewing = 6 ∧
    longSoakBrewing.config.preinfusionConfig.prefinfusionSecs ≤ 6 ∧
    6 < longSoakBrewing.config.preinfusionConfig.prefinfusionSecs +
      longSoakBrewing.config.preinfusionConfig.soakSecs ∧
    pumpCommands (controlBrew (brewingAt 7000) longSoakBrewing).trace = [0x41100000] ∧
    (controlBrew (brewingAt 7000) longSoakBrewing).state.pressure = 0x41100000 := by
  refine ⟨rfl, by decide, by decide, by decide, by decide, by decide, by decide⟩

/-! ## Boiler regulation: mode selection -/

/-- C6: with `tempSensorErrorCode = 0`, a steam switch that reads ON makes
`controlBoiler` set `targetTemp` to `config.targetSteamTemp` and
`boilerPwm` to the steam delegate's `boilerPwmValue(targetSteamTemp,
currentTemp)`, the only delegate call being that one (the PID delegate is
not called and keeps its state); a steam switch that reads OFF does the
same with `config.targetBrewTemp` and the PID delegate, the steam delegate
being left alone. -/
theorem controlBoiler_selects_delegate (pidC : PIDBoilerController σp)
    (steamC : SteamBoilerController σs) (r : Readings) (m : Machine σp σs)
    (hok : m.state.tempSensorErrorCode = 0) :
    (r.steamIsOn = true →
      (controlBoiler pidC steamC r m).state.targetTemp = m.config.targetSteamTemp ∧
      (controlBoiler pidC steamC r m).state.boilerPwm =
        (steamC.boilerPwmValue m.steamController m.config.targetSteamTemp
          m.state.currentTemp).1 ∧
      (controlBoiler pidC steamC r m).steamController =
        (steamC.boilerPwmValue m.steamController m.config.targetSteamTemp
          m.state.currentTemp).2 ∧
      (controlBoiler pidC steamC r m).pidController = m.pidController ∧
      (controlBoiler pidC steamC r m).trace = m.trace ++
        [.steamSwitchIsOn, .steamBoilerPwmValue m.config.targetSteamTemp m.state.currentTemp]) ∧
    (r.steamIsOn = false →
      (controlBoiler pidC steamC r m).state.targetTemp = m.config.targetBrewTemp ∧
      (controlBoiler pidC steamC r m).state.boilerPwm =
        (pidC.boilerPwmValue m.pidController m.config.targetBrewTemp m.state.currentTemp).1 ∧
      (controlBoiler pidC steamC r m).pidController =
        (pidC.boilerPwmValue m.pidController m.config.targetBrewTemp m.state.currentTemp).2 ∧
      (controlBoiler pidC steamC r m).steamController = m.steamController ∧
      (controlBoiler pidC steamC r m).trace = m.trace ++
        [.steamSwitchIsOn, .pidBoilerPwmValue m.config.targetBrewTemp m.state.currentTemp]) := by
  constructor
  · intro hsteam
    simp [controlBoiler, Machine.emit, Machine.setState, NO_ERROR, hok, hsteam]
  · intro hsteam
    simp [controlBoiler, Machine.emit, Machine.setState, NO_ERROR, hok, hsteam]

/-- C6 at a concrete input: the sample machine (no fault) with the steam
switch on, then off; the call counters of the two delegates show which one
was consulted. -/
theorem controlBoiler_selects_delegate_witness :
    sampleMachine.state.tempSensorErrorCode = 0 ∧
    ((controlBoiler fullDutyPid fullDutySteam { sampleReadings with steamIsOn := true }
        sampleMachine).state.targetTemp = 140 ∧
      (controlBoiler fullDutyPid fullDutySteam { sampleReadings with steamIsOn := true }
        sampleMachine).steamController = 1 ∧
      (controlBoiler fullDutyPid fullDutySteam { sampleReadings with steamIsOn := true }
        sampleMachine).pidController = 0) ∧
    ((controlBoiler fullDutyPid fullDutySteam sampleReadings sampleMachine).state.targetTemp = 93 ∧
      (controlBoiler fullDutyPid fullDutySteam sampleReadings sampleMachine).pidController = 1 ∧
      (controlBoiler fullDutyPid fullDutySteam sampleReadings
        sampleMachine).steamController = 0) :=
  ⟨rfl,
    ⟨((controlBoiler_selects_delegate fullDutyPid fullDutySteam
        { sampleReadings with steamIsOn := true } sampleMachine rfl).1 rfl).1,
      ((controlBoiler_selects_delegate fullDutyPid fullDutySteam
        { sampleReadings with steamIsOn := true } sampleMachine rfl).1 rfl).2.2.1,
      ((controlBoiler_selects_delegate fullDutyPid fullDutySteam
        { sampleReadings with steamIsOn := true } sampleMachine rfl).1 rfl).2.2.2.1⟩,
    ⟨((controlBoiler_selects_delegate fullDutyPid fullDutySteam sampleReadings
        sampleMachine rfl).2 rfl).1,
      ((controlBoiler_selects_delegate fullDutyPid fullDutySteam sampleReadings
        sampleMachine rfl).2 rfl).2.2.1,
      ((controlBoiler_selects_delegate fullDutyPid fullDutySteam sampleReadings
        sampleMachine rfl).2 rfl).2.2.2.1⟩⟩

/-! ## Brew sequencing: switch edges and the manual page -/

/-- C7, as the code has it: on an OFF to ON edge of the brew switch (the
switch reads ON, the recorded `brewSwitchState` is not ON), `controlBrew`
sets `brewingStart` to the clock value it reads when the display is not on
the manual-brew page; on the manual-brew page it leaves `brewingStart` as
it was. -/
theorem controlBrew_edge_latches_in_auto (r : Readings) (m : Machine σp σs)
    (hOn : r.brewIsOn = true) (hedge : m.state.brewSwitchState ≠ .SWITCH_ON) :
    (r.currentPage ≠ .BREWING_MANUAL →
      (controlBrew r m).state.brewingStart = wrap32 r.millisLatch) ∧
    (r.currentPage = .BREWING_MANUAL →
      (controlBrew r m).state.brewingStart = m.state.brewingStart) := by
  constructor
  · intro hAuto
    unfold controlBrew
    simp only [Machine.emit, Machine.setState, hOn, hAuto, hedge, ne_eq, not_false_eq_true,
      if_true, if_false]
    split <;> (try split) <;> rfl
  · intro hManual
    simp [controlBrew, Machine.emit, Machine.setState, hOn, hManual]

/-- C7 at a concrete input: an edge at 2000 ms on an automatic page latches
2000; the same edge on the manual page leaves the 0 in place. -/
theorem controlBrew_edge_latches_in_auto_witness :
    (brewingAt 2000).brewIsOn = true ∧
    sampleMachine.state.brewSwitchState ≠ .SWITCH_ON ∧
    (controlBrew (brewingAt 2000) sampleMachine).state.brewingStart = 2000 ∧
    (controlBrew { brewingAt 2000 with currentPage := .BREWING_MANUAL }
      sampleMachine).state.brewingStart = 0 :=
  ⟨rfl, by decide,
    (controlBrew_edge_latches_in_auto (brewingAt 2000) sampleMachine rfl (by decide)).1
      (by decide),
    (controlBrew_edge_latches_in_auto { brewingAt 2000 with currentPage := .BREWING_MANUAL }
      sampleMachine rfl (by decide)).2 rfl⟩

/-- C7 fails as stated: an OFF to ON edge at clock value 2000 with the
display on the manual-brew page leaves `brewingStart` at 0; the clock is
not read at all in that call. -/
theorem controlBrew_manual_edge_no_latch :
    ({ brewingAt 2000 with currentPage := .BREWING_MANUAL }).brewIsOn = true ∧
    sampleMachine.state.brewSwitchState = .SWITCH_OFF ∧
    wrap32 ({ brewingAt 2000 with currentPage := .BREWING_MANUAL }).millisLatch = 2000 ∧
    (controlBrew { brewingAt 2000 with currentPage := .BREWING_MANUAL }
      sampleMachine).state.brewingStart = 0 ∧
    (controlBrew { brewingAt 2000 with currentPage := .BREWING_MANUAL }
      sampleMachine).state.brewSwitchState = .SWITCH_ON ∧
    Event.millis ∉ (controlBrew { brewingAt 2000 with currentPage := .BREWING_MANUAL }
      sampleMachine).trace := by
  refine ⟨rfl, rfl, by decide, by decide, by decide, by decide⟩

/-- C8: in a cycle in which the brew switch reads OFF (both reads made by
`controlBrew`), the state afterwards has `brewingStart = 0` and
`brewSwitchState = SWITCH_OFF`, whatever they were before. -/
theorem controlBrew_off_resets (r : Readings) (m : Machine σp σs)
    (hOff : r.brewIsOn = false) (hOffAgain : r.brewIsOnAgain = false) :
    (controlBrew r m).state.brewingStart = 0 ∧
    (controlBrew r m).state.brewSwitchState = .SWITCH_OFF := by
  simp [controlBrew, Machine.emit, Machine.setState, hOff, hOffAgain]

/-- C8 at a concrete input: the switch is released in the middle of a shot
started at 1000 ms. -/
theorem controlBrew_off_resets_witness :
    sampleReadings.brewIsOn = false ∧ sampleReadings.brewIsOnAgain = false ∧
    sampleBrewing.state.brewingStart = 1000 ∧
    (controlBrew sampleReadings sampleBrewing).state.brewingStart = 0 ∧
    (controlBrew sampleReadings sampleBrewing).state.brewSwitchState = .SWITCH_OFF :=
  ⟨rfl, rfl, rfl, controlBrew_off_resets sampleReadings sampleBrewing rfl rfl⟩

/-- C9: with the brew switch ON and the display on the manual-brew page,
`controlBrew` reads `getManualPressure`, stores that value in
`state.pressure` and passes it to `setDesiredPressure`; these are its only
calls after the switch and page reads (no clock read), `brewingStart` is
not touched, and neither `brewingStart`, the clock readings nor the
preinfusion configuration enter the result. -/
theorem controlBrew_manual_forwards_pressure (r : Readings) (m : Machine σp σs)
    (hOn : r.brewIsOn = true) (hManual : r.currentPage = .BREWING_MANUAL) :
    (controlBrew r m).trace = m.trace ++
      [.brewSwitchIsOn, .guiGetCurrentPage, .guiGetManualPressure,
        .setDesiredPressure r.manualPressure] ∧
    pumpCommands (controlBrew r m).trace = pumpCommands m.trace ++ [r.manualPressure] ∧
    (controlBrew r m).state.pressure = r.manualPressure ∧
    (controlBrew r m).state.brewingStart = m.state.brewingStart ∧
    ∀ (start latch clock : Nat) (pc : PreinfusionConfig),
      (controlBrew { r with millisLatch := latch, millisBrew := clock }
        { m with
          state := { m.state with brewingStart := start }
          config := { m.config with preinfusionConfig := pc } }).state.pressure =
        (controlBrew r m).state.pressure ∧
      (controlBrew { r with millisLatch := latch, millisBrew := clock }
        { m with
          state := { m.state with brewingStart := start }
          config := { m.config with preinfusionConfig := pc } }).trace =
        (controlBrew r m).trace := by
  simp [controlBrew, Machine.emit, Machine.setState, hOn, hManual, pumpCommands]

/-- C9 at a concrete input: manual pressure 4 bar (`0x40800000`) in the
middle of a shot. -/
theorem controlBrew_manual_forwards_pressure_witness :
    ({ brewingAt 7000 with currentPage := .BREWING_MANUAL }).brewIsOn = true ∧
    pumpCommands (controlBrew { brewingAt 7000 with currentPage := .BREWING_MANUAL }
      sampleBrewing).trace = [0x40800000] ∧
    (controlBrew { brewingAt 7000 with currentPage := .BREWING_MANUAL }
      sampleBrewing).state.pressure = 0x40800000 :=
  ⟨rfl,
    (controlBrew_manual_forwards_pressure { brewingAt 7000 with currentPage := .BREWING_MANUAL }
      sampleBrewing rfl rfl).2.1,
    (controlBrew_manual_forwards_pressure { brewingAt 7000 with currentPage := .BREWING_MANUAL }
      sampleBrewing rfl rfl).2.2.1⟩

/-! ## The sample-interval gate of `loop` -/

/-- C10: `loop` runs the control cycle (observed by its sensor read) exactly
when `now - lastEvaluation` exceeds `SAMPLE_INTERVAL`.  When it does not,
no field of the runtime state changes and the only calls made are the
clock read and `gui.loop()`: no sensor read, no pump command, no pin
write.  When it does, `lastEvaluation` equals `now` afterwards. -/
theorem loop_interval_gate (pidC : PIDBoilerController σp)
    (steamC : SteamBoilerController σs) (r : Readings) (m : Machine σp σs) :
    (intervalElapsed r m ↔
      Event.readCelsius ∈ List.drop m.trace.length (loop pidC steamC r m).trace) ∧
    (¬ intervalElapsed r m →
      (loop pidC steamC r m).state = m.state ∧
      (loop pidC steamC r m).trace = m.trace ++ [.millis, .guiLoop]) ∧
    (intervalElapsed r m →
      (loop pidC steamC r m).state.lastEvaluation = wrap32 r.millisLoop) := by
  refine ⟨⟨fun h => ?_, fun h => ?_⟩, fun h => ?_, fun h => ?_⟩
  · obtain ⟨t, ht⟩ := loop_elapsed_trace pidC steamC r m h
    rw [ht, List.drop_left]
    simp
  · by_contra hnot
    rw [loop_not_elapsed pidC steamC r m hnot] at h
    simp at h
  · rw [loop_not_elapsed pidC steamC r m h]
    exact ⟨rfl, rfl⟩
  · rw [loop_elapsed_eq pidC steamC r m h]
    rfl

/-- C10 at concrete inputs: with `lastEvaluation = 1000`, a call at 1100 ms
(difference exactly 100) only services the display, and a call at 1101 ms
runs the cycle and stamps 1101. -/
theorem loop_interval_gate_witness :
    (¬ intervalElapsed { sampleReadings with millisLoop := 1100 } sampleMachine ∧
      (loop fullDutyPid fullDutySteam { sampleReadings with millisLoop := 1100 }
        sampleMachine).state = sampleState ∧
      (loop fullDutyPid fullDutySteam { sampleReadings with millisLoop := 1100 }
        sampleMachine).trace = [.millis, .guiLoop]) ∧
    (intervalElapsed { sampleReadings with millisLoop := 1101 } sampleMachine ∧
      (loop fullDutyPid fullDutySteam { sampleReadings with millisLoop := 1101 }
        sampleMachine).state.lastEvaluation = 1101) :=
  ⟨⟨by decide,
      (loop_interval_gate fullDutyPid fullDutySteam { sampleReadings with millisLoop := 1100 }
        sampleMachine).2.1 (by decide)⟩,
    ⟨by decide,
      (loop_interval_gate fullDutyPid fullDutySteam { sampleReadings with millisLoop := 1101 }
        sampleMachine).2.2 (by decide)⟩⟩

/-! ## Temperature acquisition -/

/-- The calls made by `readTemperature` and the two fields it writes. -/
theorem readTemperature_effect (r : Readings) (m : Machine σp σs) :
    (readTemperature r m).trace = m.trace ++
      (if (r.sensorFaultCode % 256).toNat ≠ 0
        then [Event.readCelsius, Event.sensorFaultCode, Event.clearFaultCode]
        else [Event.readCelsius, Event.sensorFaultCode]) ∧
    (readTemperature r m).state =
      { m.state with
        currentTemp := r.readCelsius
        tempSensorErrorCode := (r.sensorFaultCode % 256).toNat } := by
  unfold readTemperature
  simp only [Machine.emit, Machine.setState, NO_ERROR]
  split <;> simp

/-- C11, as the code has it: `readTemperature` stores the low eight bits of
the reported fault code in `state.tempSensorErrorCode` (the code itself
when it lies between 0 and 255) and calls `clearFaultCode` exactly once
when that stored value is not 0, and never when it is 0; in particular it
is never called for a reported code of 0. -/
theorem readTemperature_clears_stored_fault (r : Readings) (m : Machine σp σs) :
    ((readTemperature r m).state.tempSensorErrorCode : Int) = r.sensorFaultCode % 256 ∧
    (0 ≤ r.sensorFaultCode → r.sensorFaultCode < 256 →
      ((readTemperature r m).state.tempSensorErrorCode : Int) = r.sensorFaultCode) ∧
    (r.sensorFaultCode % 256 ≠ 0 →
      (readTemperature r m).trace.count .clearFaultCode =
        m.trace.count .clearFaultCode + 1) ∧
    (r.sensorFaultCode % 256 = 0 →
      (readTemperature r m).trace.count .clearFaultCode = m.trace.count .clearFaultCode) ∧
    (r.sensorFaultCode = 0 →
      (readTemperature r m).trace.count .clearFaultCode = m.trace.count .clearFaultCode) := by
  have hnn : ∀ c : Int, ((c % 256).toNat : Int) = c % 256 := fun c => by omega
  have hz : ∀ c : Int, ((c % 256).toNat = 0 ↔ c % 256 = 0) := fun c => by omega
  have hid : ∀ c : Int, 0 ≤ c → c < 256 → c % 256 = c := fun c h0 h1 => by omega
  obtain ⟨htrace, hstate⟩ := readTemperature_effect r m
  have hfalse : r.sensorFaultCode % 256 = 0 →
      (readTemperature r m).trace.count .clearFaultCode = m.trace.count .clearFaultCode := by
    intro h
    have h0 : (r.sensorFaultCode % 256).toNat = 0 := (hz r.sensorFaultCode).2 h
    rw [htrace]
    simp [h0, List.count_append]
  refine ⟨?_, fun h0 h1 => ?_, fun h => ?_, hfalse, fun h => hfalse ?_⟩
  · rw [hstate]
    exact hnn r.sensorFaultCode
  · rw [hstate]
    exact (hnn r.sensorFaultCode).trans (hid r.sensorFaultCode h0 h1)
  · have h0 : (r.sensorFaultCode % 256).toNat ≠ 0 := fun h' => h ((hz r.sensorFaultCode).1 h')
    rw [htrace]
    simp [h0, List.count_append]
  · rw [h]
    rfl

/-- C11 at concrete inputs: fault code 4 is stored as 4 and acknowledged
once; fault code 0 is stored as 0 and not acknowledged. -/
theorem readTemperature_clears_stored_fault_witness :
    ((readTemperature { sampleReadings with sensorFaultCode := 4 }
        sampleMachine).state.tempSensorErrorCode = 4 ∧
      (readTemperature { sampleReadings with sensorFaultCode := 4 }
        sampleMachine).trace.count .clearFaultCode = 1) ∧
    ((readTemperature sampleReadings sampleMachine).state.tempSensorErrorCode = 0 ∧
      (readTemperature sampleReadings sampleMachine).trace.count .clearFaultCode = 0) :=
  ⟨⟨by decide,
      (readTemperature_clears_stored_fault { sampleReadings with sensorFaultCode := 4 }
        sampleMachine).2.2.1 (by decide)⟩,
    ⟨by decide,
      (readTemperature_clears_stored_fault sampleReadings sampleMachine).2.2.2.2 rfl⟩⟩

/-- C11 fails as stated: the sensor reports fault code 256, which is not 0;
`clearFaultCode` is not called and the stored code is 0, not 256. -/
theorem readTemperature_fault_code_256_not_cleared :
    ({ sampleReadings with sensorFaultCode := 256 }).sensorFaultCode ≠ 0 ∧
    (readTemperature { sampleReadings with sensorFaultCode := 256 } sampleMachine).trace =
      [.readCelsius, .sensorFaultCode] ∧
    (readTemperature { sampleReadings with sensorFaultCode := 256 }
      sampleMachine).state.tempSensorErrorCode = 0 := by
  refine ⟨by decide, by decide, by decide⟩

/-- C12, as the code has it: `readTemperature` stores the value returned by
`readCelsius()` in `state.currentTemp` on every acquisition, whatever fault
code the sensor reports; the previous reading is not retained. -/
theorem readTemperature_overwrites_currentTemp (r : Readings) (m : Machine σp σs) :
    (readTemperature r m).state.currentTemp = r.readCelsius := by
  rw [(readTemperature_effect r m).2]

/-- C12 fails as stated: the state holds the reading `0x4056800000000000`
(90 degrees); the sensor reports fault code 4 and returns the reading 0;
afterwards `state.currentTemp` is 0. -/
theorem readTemperature_fault_overwrites_reading :
    ({ sampleReadings with sensorFaultCode := 4, readCelsius := 0 }).sensorFaultCode ≠ 0 ∧
    sampleMachine.state.currentTemp = 0x4056800000000000 ∧
    (readTemperature { sampleReadings with sensorFaultCode := 4, readCelsius := 0 }
      sampleMachine).state.currentTemp = 0 := by
  refine ⟨by decide, rfl, by decide⟩

/-! ## Applying new settings -/

/-- The configuration `onSaveTriggered` builds from the values held by the
display, before the checksum is stamped: the gains with `sampleTime` set
to `SAMPLE_INTERVAL`, the two targets and the preinfusion parameters. -/
theorem onSaveTriggered_effect (lib : CRC32) (g : GuiSettings) (m : Machine σp σs) :
    (onSaveTriggered lib g m).config =
      { targetBrewTemp := g.targetTemperature
        targetSteamTemp := g.targetSteamTemperature
        pidParams := { g.pidParam with sampleTime := SAMPLE_INTERVAL }
        preinfusionConfig := g.preinfusionParams
        crc := calculateSum lib
          { targetBrewTemp := g.targetTemperature
            targetSteamTemp := g.targetSteamTemperature
            pidParams := { g.pidParam with sampleTime := SAMPLE_INTERVAL }
            preinfusionConfig := g.preinfusionParams
            crc := m.config.crc } } ∧
    (onSaveTriggered lib g m).eeprom = (onSaveTriggered lib g m).config ∧
    (onSaveTriggered lib g m).trace = m.trace ++
      [.guiGetPidParam, .guiGetTargetTemperature, .guiGetTargetSteamTemperature,
        .guiGetPreinfusionParams, .eepromPut (onSaveTriggered lib g m).config] ∧
    (onSaveTriggered lib g m).pidController = m.pidController ∧
    (onSaveTriggered lib g m).state = m.state := by
  simp [onSaveTriggered, saveConfig, Machine.emit]

/-- The checksum does not depend on the `crc` field of the record. -/
theorem calculateSum_ignores_crc (lib : CRC32) (c : CoffeeMachineConfig) (x : Nat) :
    calculateSum lib { c with crc := x } = calculateSum lib c := by
  simp [calculateSum, payloadBytes]

/-- C13: after `onSaveTriggered` the in-memory configuration has
`pidParams.sampleTime = SAMPLE_INTERVAL = 100` whatever the display
supplied, its `kp`, `ki`, `kd`, `targetBrewTemp`, `targetSteamTemp` and
`preinfusionConfig` are the display's values, its `crc` is `calculateSum`
of it, and the record written to the store (the last call made, and the
content of the store afterwards) is that configuration. -/
theorem onSaveTriggered_copies_and_saves (lib : CRC32) (g : GuiSettings) (m : Machine σp σs) :
    (onSaveTriggered lib g m).config.pidParams.sampleTime = SAMPLE_INTERVAL ∧
    SAMPLE_INTERVAL = 100 ∧
    (onSaveTriggered lib g m).config.pidParams.kp = g.pidParam.kp ∧
    (onSaveTriggered lib g m).config.pidParams.ki = g.pidParam.ki ∧
    (onSaveTriggered lib g m).config.pidParams.kd = g.pidParam.kd ∧
    (onSaveTriggered lib g m).config.targetBrewTemp = g.targetTemperature ∧
    (onSaveTriggered lib g m).config.targetSteamTemp = g.targetSteamTemperature ∧
    (onSaveTriggered lib g m).config.preinfusionConfig = g.preinfusionParams ∧
    (onSaveTriggered lib g m).config.crc = calculateSum lib (onSaveTriggered lib g m).config ∧
    (onSaveTriggered lib g m).eeprom = (onSaveTriggered lib g m).config ∧
    (onSaveTriggered lib g m).trace = m.trace ++
      [.guiGetPidParam, .guiGetTargetTemperature, .guiGetTargetSteamTemperature,
        .guiGetPreinfusionParams, .eepromPut (onSaveTriggered lib g m).config] := by
  obtain ⟨hcfg, heeprom, htrace, -, -⟩ := onSaveTriggered_effect lib g m
  refine ⟨?_, rfl, ?_, ?_, ?_, ?_, ?_, ?_, ?_, heeprom, htrace⟩
  · rw [hcfg]
  · rw [hcfg]
  · rw [hcfg]
  · rw [hcfg]
  · rw [hcfg]
  · rw [hcfg]
  · rw [hcfg]
  · rw [hcfg]
    simp only [calculateSum, payloadBytes]

/-- C14 on the code: the display holds new gains; after `onSaveTriggered`
the configuration carries them, but the brew-mode delegate has received
nothing (its list of received parameter sets is still empty and no call to
a delegate was made); `applyConfigChange`, which `onSaveTriggered` does not
call, is what delivers them. -/
theorem onSaveTriggered_leaves_pid_delegate :
    (onSaveTriggered sampleLib sampleSettings sampleRecording).config.pidParams =
      { sampleSettings.pidParam with sampleTime := 100 } ∧
    (onSaveTriggered sampleLib sampleSettings sampleRecording).config.pidParams ≠
      sampleRecording.config.pidParams ∧
    (onSaveTriggered sampleLib sampleSettings sampleRecording).pidController = [] ∧
    (onSaveTriggered sampleLib sampleSettings sampleRecording).trace.filter isDelegateCall = [] ∧
    (applyConfigChange recordingPid
      (onSaveTriggered sampleLib sampleSettings sampleRecording)).pidController =
      [{ sampleSettings.pidParam with sampleTime := 100 }] := by
  obtain ⟨hcfg, -, htrace, hpid, -⟩ :=
    onSaveTriggered_effect sampleLib sampleSettings sampleRecording
  refine ⟨?_, ?_, hpid, ?_, ?_⟩
  · rw [hcfg]
    rfl
  · rw [hcfg]
    decide
  · rw [htrace]
    rfl
  · simp only [applyConfigChange, Machine.emit, hpid, hcfg]
    rfl

/-! ## Brew sequencing: the start-of-shot latch over a run -/

/-- What `controlBrew` does to the recorded switch state and to
`brewingStart`, case by case. -/
theorem controlBrew_switch_fields (r : Readings) (m : Machine σp σs) :
    (r.brewIsOn = true → (controlBrew r m).state.brewSwitchState = .SWITCH_ON) ∧
    (r.brewIsOn = true → r.currentPage = .BREWING_MANUAL →
      (controlBrew r m).state.brewingStart = m.state.brewingStart) ∧
    (r.brewIsOn = true → r.currentPage ≠ .BREWING_MANUAL →
      m.state.brewSwitchState = .SWITCH_ON →
      (controlBrew r m).state.brewingStart = m.state.brewingStart) ∧
    (r.brewIsOn = true → r.currentPage ≠ .BREWING_MANUAL →
      m.state.brewSwitchState ≠ .SWITCH_ON →
      (controlBrew r m).state.brewingStart = wrap32 r.millisLatch) ∧
    (r.brewIsOn = false → r.brewIsOnAgain = false →
      (controlBrew r m).state.brewSwitchState = .SWITCH_OFF ∧
      (controlBrew r m).state.brewingStart = 0) ∧
    (r.brewIsOn = false → r.brewIsOnAgain = true →
      (controlBrew r m).state = m.state) := by
  refine ⟨fun hOn => ?_, fun hOn hMan => ?_, fun hOn hAuto hsw => ?_,
    fun hOn hAuto hsw => ?_, fun hOff hOff2 => ?_, fun hOff hOn2 => ?_⟩
  · unfold controlBrew
    simp only [hOn, if_true, Machine.setState]
  · simp [controlBrew, Machine.emit, Machine.setState, hOn, hMan]
  · unfold controlBrew
    simp only [Machine.emit, Machine.setState, hOn, hAuto, hsw, ne_eq, not_true_eq_false,
      if_true, if_false]
    split <;> (try split) <;> rfl
  · unfold controlBrew
    simp only [Machine.emit, Machine.setState, hOn, hAuto, hsw, ne_eq, not_false_eq_true,
      if_true, if_false]
    split <;> (try split) <;> rfl
  · simp [controlBrew, Machine.emit, Machine.setState, hOff, hOff2]
  · simp [controlBrew, Machine.emit, Machine.setState, hOff, hOn2]

/-- A non-zero `brewingStart` goes with a recorded switch state of ON: the
property is kept by every call of `controlBrew`. -/
theorem controlBrew_keeps_latch_inv (r : Readings) (m : Machine σp σs)
    (hinv : m.state.brewingStart ≠ 0 → m.state.brewSwitchState = .SWITCH_ON) :
    (controlBrew r m).state.brewingStart ≠ 0 →
      (controlBrew r m).state.brewSwitchState = .SWITCH_ON := by
  obtain ⟨hOnSw, -, -, -, hOffOff, hGlitch⟩ := controlBrew_switch_fields r m
  intro hne
  cases hOn : r.brewIsOn with
  | true => exact hOnSw hOn
  | false =>
    cases hOn2 : r.brewIsOnAgain with
    | false => exact absurd (hOffOff hOn hOn2).2 hne
    | true =>
      rw [hGlitch hOn hOn2] at hne ⊢
      exact hinv hne

/-- The same property after any run of `controlBrew` calls that starts
with `brewingStart = 0`. -/
theorem runBrew_latch_inv (rs : List Readings) (m : Machine σp σs)
    (hinit : m.state.brewingStart = 0) :
    (runBrew rs m).state.brewingStart ≠ 0 →
      (runBrew rs m).state.brewSwitchState = .SWITCH_ON := by
  have hgen : ∀ (l : List Readings) (a : Machine σp σs),
      (a.state.brewingStart ≠ 0 → a.state.brewSwitchState = .SWITCH_ON) →
      (runBrew l a).state.brewingStart ≠ 0 →
        (runBrew l a).state.brewSwitchState = .SWITCH_ON := by
    intro l
    induction l with
    | nil => intro a ha; exact ha
    | cons r l ih =>
      intro a ha
      exact ih (controlBrew r a) (controlBrew_keeps_latch_inv r a ha)
  exact hgen rs m (fun h => absurd hinit h)

/-- C15, as the code has it: after every `controlBrew` step of a run that
starts with `brewingStart = 0`, for every sequence of readings,
a non-zero `brewingStart` implies that the recorded brew switch state is ON
and that the switch did not read OFF in that step, and a step in which the
switch reads OFF leaves `brewingStart = 0`.  In the other direction, with
the switch ON: an OFF to ON edge on a page other than the manual one sets
`brewingStart` to the clock value read (non-zero exactly when that value
is), and every other step with the switch ON (manual page, or switch
already recorded ON) leaves `brewingStart` as it was. -/
theorem controlBrew_latch_invariant (rs : List Readings) (r : Readings) (m : Machine σp σs)
    (hinit : m.state.brewingStart = 0) :
    ((controlBrew r (runBrew rs m)).state.brewingStart ≠ 0 →
      (controlBrew r (runBrew rs m)).state.brewSwitchState = .SWITCH_ON ∧
      ¬ (r.brewIsOn = false ∧ r.brewIsOnAgain = false)) ∧
    (r.brewIsOn = false → r.brewIsOnAgain = false →
      (controlBrew r (runBrew rs m)).state.brewingStart = 0) ∧
    (r.brewIsOn = true → r.currentPage ≠ .BREWING_MANUAL →
      (runBrew rs m).state.brewSwitchState ≠ .SWITCH_ON →
      (controlBrew r (runBrew rs m)).state.brewingStart = wrap32 r.millisLatch) ∧
    (r.brewIsOn = true → r.currentPage ≠ .BREWING_MANUAL →
      (runBrew rs m).state.brewSwitchState = .SWITCH_ON →
      (controlBrew r (runBrew rs m)).state.brewingStart =
        (runBrew rs m).state.brewingStart) ∧
    (r.brewIsOn = true → r.currentPage = .BREWING_MANUAL →
      (controlBrew r (runBrew rs m)).state.brewingStart =
        (runBrew rs m).state.brewingStart) := by
  obtain ⟨-, hMan, hHeld, hLatch, hOffOff, -⟩ := controlBrew_switch_fields r (runBrew rs m)
  refine ⟨fun hne => ⟨?_, fun hoff => ?_⟩, fun h1 h2 => (hOffOff h1 h2).2,
    fun h1 h2 h3 => hLatch h1 h2 h3, fun h1 h2 h3 => hHeld h1 h2 h3, fun h1 h2 => hMan h1 h2⟩
  · exact controlBrew_keeps_latch_inv r (runBrew rs m) (runBrew_latch_inv rs m hinit) hne
  · exact hne (hOffOff hoff.1 hoff.2).2

/-- C15 at a concrete run: an edge at 2000 ms on an automatic page, a
second step at 3000 ms with the switch held, then a release. -/
theorem controlBrew_latch_invariant_witness :
    sampleMachine.state.brewingStart = 0 ∧
    (controlBrew (brewingAt 3000) (runBrew [brewingAt 2000] sampleMachine)).state.brewingStart
      = 2000 ∧
    (controlBrew (brewingAt 3000) (runBrew [brewingAt 2000] sampleMachine)).state.brewSwitchState
      = .SWITCH_ON ∧
    (controlBrew sampleReadings
      (runBrew [brewingAt 2000, brewingAt 3000] sampleMachine)).state.brewingStart = 0 :=
  ⟨rfl, by decide,
    ((controlBrew_latch_invariant [brewingAt 2000] (brewingAt 3000) sampleMachine rfl).1
      (by decide)).1,
    (controlBrew_latch_invariant [brewingAt 2000, brewingAt 3000] sampleReadings
      sampleMachine rfl).2.1 rfl rfl⟩

/-- C15 fails as stated: from the sample machine (`brewingStart = 0`,
switch recorded OFF) the brew switch is pressed on the manual page at
2000 ms and the display then moves to an automatic page at 3000 ms; the
switch read ON in both steps and is recorded ON, yet `brewingStart` is 0
after each of them. -/
theorem runBrew_manual_start_never_latches :
    sampleMachine.state.brewingStart = 0 ∧
    ({ brewingAt 2000 with currentPage := .BREWING_MANUAL }).brewIsOn = true ∧
    (brewingAt 3000).brewIsOn = true ∧
    (runBrew [{ brewingAt 2000 with currentPage := .BREWING_MANUAL }]
      sampleMachine).state.brewSwitchState = .SWITCH_ON ∧
    (runBrew [{ brewingAt 2000 with currentPage := .BREWING_MANUAL }]
      sampleMachine).state.brewingStart = 0 ∧
    (runBrew [{ brewingAt 2000 with currentPage := .BREWING_MANUAL }, brewingAt 3000]
      sampleMachine).state.brewSwitchState = .SWITCH_ON ∧
    (runBrew [{ brewingAt 2000 with currentPage := .BREWING_MANUAL }, brewingAt 3000]
      sampleMachine).state.brewingStart = 0 := by
  refine ⟨rfl, rfl, rfl, by decide, by decide, by decide, by decide⟩

/-! ## Brew sequencing: pump commands per cycle -/

/-- C16: in every cycle in which the brew switch is ON, on every page and
for every clock value, start time and configuration, `controlBrew` passes
exactly one value to `setDesiredPressure`, and `state.pressure` afterwards
is that value. -/
theorem controlBrew_on_one_command (r : Readings) (m : Machine σp σs)
    (hOn : r.brewIsOn = true) :
    ∃ bar : F32,
      pumpCommands (controlBrew r m).trace = pumpCommands m.trace ++ [bar] ∧
      (controlBrew r m).state.pressure = bar := by
  by_cases hMan : r.currentPage = .BREWING_MANUAL
  · exact ⟨r.manualPressure, by
      simp [controlBrew, Machine.emit, Machine.setState, hOn, hMan, pumpCommands]⟩
  · exact ⟨_, controlBrew_auto_command r m hOn hMan⟩

/-- C16 at concrete inputs: one command on the manual page (4 bar) and one
on an automatic page (soak, 0 bar), each recorded in `state.pressure`. -/
theorem controlBrew_on_one_command_witness :
    (brewingAt 7000).brewIsOn = true ∧
    (pumpCommands (controlBrew { brewingAt 7000 with currentPage := .BREWING_MANUAL }
        sampleBrewing).trace).length = 1 ∧
    (pumpCommands (controlBrew (brewingAt 7000) sampleBrewing).trace).length = 1 ∧
    (∃ bar : F32,
      pumpCommands (controlBrew (brewingAt 7000) sampleBrewing).trace =
        pumpCommands sampleBrewing.trace ++ [bar] ∧
      (controlBrew (brewingAt 7000) sampleBrewing).state.pressure = bar) :=
  ⟨rfl, by decide, by decide, controlBrew_on_one_command (brewingAt 7000) sampleBrewing rfl⟩

/-- C17: in every cycle in which the brew switch reads OFF, `controlBrew`
passes nothing to `setDesiredPressure` and leaves `state.pressure` as it
was; the pump is not commanded to 0 on release. -/
theorem controlBrew_off_no_pump_command (r : Readings) (m : Machine σp σs)
    (hOff : r.brewIsOn = false) :
    pumpCommands (controlBrew r m).trace = pumpCommands m.trace ∧
    (controlBrew r m).state.pressure = m.state.pressure ∧
    (controlBrew r m).trace = m.trace ++ [.brewSwitchIsOn, .brewSwitchIsOn] := by
  unfold controlBrew
  simp only [Machine.emit, Machine.setState, hOff]
  cases r.brewIsOnAgain <;> simp [pumpCommands]

/-- C17 at a concrete input: the switch is released while the state holds
9 bar (`0x41100000`) as the last commanded pressure. -/
theorem controlBrew_off_no_pump_command_witness :
    sampleReadings.brewIsOn = false ∧
    pumpCommands (controlBrew sampleReadings
      { sampleBrewing with
        state := { sampleBrewing.state with pressure := 0x41100000 } }).trace = [] ∧
    (controlBrew sampleReadings
      { sampleBrewing with
        state := { sampleBrewing.state with pressure := 0x41100000 } }).state.pressure
      = 0x41100000 :=
  ⟨rfl,
    (controlBrew_off_no_pump_command sampleReadings
      { sampleBrewing with
        state := { sampleBrewing.state with pressure := 0x41100000 } } rfl).1,
    (controlBrew_off_no_pump_command sampleReadings
      { sampleBrewing with
        state := { sampleBrewing.state with pressure := 0x41100000 } } rfl).2.1⟩

/-! ## Heater actuation -/

/-- The duty held by the state after an executed cycle is the one
`controlBoiler` computed in that cycle. -/
theorem loop_elapsed_boilerPwm (pidC : PIDBoilerController σp)
    (steamC : SteamBoilerController σs) (r : Readings) (m : Machine σp σs)
    (helapsed : intervalElapsed r m) :
    (loop pidC steamC r m).state.boilerPwm =
      (controlBoiler pidC steamC r
        (readTemperature r ((m.emit .millis).emit .guiLoop))).state.boilerPwm := by
  rw [loop_elapsed_eq pidC steamC r m helapsed, setState_state]
  simp only [updateGui_state, emit_state, controlBrew_boilerPwm]

/-- C18: in every executed control cycle the only pin write is one
`digitalWrite` on `boilerSsrPin`, whose level is HIGH exactly when the duty
computed in that cycle (`state.boilerPwm`, as `controlBoiler` left it) is
255, and LOW for every duty below 255 (and for every other value): the pin
is driven on or off, never with an intermediate duty. -/
theorem loop_heater_pin_binary (pidC : PIDBoilerController σp)
    (steamC : SteamBoilerController σs) (r : Readings) (m : Machine σp σs)
    (helapsed : intervalElapsed r m) :
    ∃ level : PinLevel,
      pinWrites (loop pidC steamC r m).trace = pinWrites m.trace ++ [(m.boilerSsrPin, level)] ∧
      (level = .HIGH ↔ (loop pidC steamC r m).state.boilerPwm = 255) ∧
      ((loop pidC steamC r m).state.boilerPwm < 255 → level = .LOW) ∧
      ((loop pidC steamC r m).state.boilerPwm ≠ 255 → level = .LOW) := by
  refine ⟨_, loop_elapsed_pinWrites pidC steamC r m helapsed, ?_, ?_, ?_⟩
  · rw [loop_elapsed_boilerPwm pidC steamC r m helapsed]
    split <;> simp_all
  · rw [loop_elapsed_boilerPwm pidC steamC r m helapsed]
    intro hlt
    rw [if_neg (by omega)]
  · rw [loop_elapsed_boilerPwm pidC steamC r m helapsed]
    intro hne
    rw [if_neg hne]

/-- C18 at a concrete input: a quiet cycle in which the brew-mode delegate
asks for duty 255 writes the pin HIGH. -/
theorem loop_heater_pin_binary_witness :
    intervalElapsed sampleReadings sampleMachine ∧
    (loop fullDutyPid fullDutySteam sampleReadings sampleMachine).state.boilerPwm = 255 ∧
    (∃ level : PinLevel,
      pinWrites (loop fullDutyPid fullDutySteam sampleReadings sampleMachine).trace =
        pinWrites sampleMachine.trace ++ [(sampleMachine.boilerSsrPin, level)] ∧
      (level = .HIGH ↔
        (loop fullDutyPid fullDutySteam sampleReadings sampleMachine).state.boilerPwm = 255) ∧
      ((loop fullDutyPid fullDutySteam sampleReadings sampleMachine).state.boilerPwm < 255 →
        level = .LOW) ∧
      ((loop fullDutyPid fullDutySteam sampleReadings sampleMachine).state.boilerPwm ≠ 255 →
        level = .LOW)) :=
  ⟨by decide, by decide,
    loop_heater_pin_binary fullDutyPid fullDutySteam sampleReadings sampleMachine (by decide)⟩

/-! ## Clock wrap-around -/

/-- C19: when the clock value `now` read by `loop` is numerically smaller
than `lastEvaluation`, the signed difference is negative and the control
cycle is not executed, whatever the elapsed time modulo `2 ^ 32` is: the
runtime state is unchanged, no pin is written, and the only calls are the
clock read and `gui.loop()`. -/
theorem loop_clock_wrapped_skips_cycle (pidC : PIDBoilerController σp)
    (steamC : SteamBoilerController σs) (r : Readings) (m : Machine σp σs)
    (hwrapped : wrap32 r.millisLoop < m.state.lastEvaluation) :
    ¬ intervalElapsed r m ∧
    (loop pidC steamC r m).state = m.state ∧
    pinWrites (loop pidC steamC r m).trace = pinWrites m.trace ∧
    (loop pidC steamC r m).trace = m.trace ++ [.millis, .guiLoop] := by
  have hnot : ¬ intervalElapsed r m := by
    unfold intervalElapsed
    have h : ((wrap32 r.millisLoop : Nat) : Int) < (m.state.lastEvaluation : Int) := by
      exact_mod_cast hwrapped
    have hpos : (0 : Int) ≤ ((SAMPLE_INTERVAL : Nat) : Int) := Int.ofNat_nonneg _
    omega
  rw [loop_not_elapsed pidC steamC r m hnot]
  exact ⟨hnot, rfl, by simp [pinWrites], rfl⟩

/-- C19 at a concrete input: the last cycle ran at 4294967000 ms and the
clock has wrapped to 500 ms, 796 ms later modulo `2 ^ 32`; the cycle is
not executed and the state, with its duty of 255, stays. -/
theorem loop_clock_wrapped_skips_cycle_witness :
    sub32 500 4294967000 = 796 ∧
    (loop fullDutyPid fullDutySteam { sampleReadings with millisLoop := 500 }
      { sampleMachine with
        state := { sampleState with lastEvaluation := 4294967000 } }).state =
      { sampleState with lastEvaluation := 4294967000 } ∧
    pinWrites (loop fullDutyPid fullDutySteam { sampleReadings with millisLoop := 500 }
      { sampleMachine with
        state := { sampleState with lastEvaluation := 4294967000 } }).trace = [] :=
  ⟨by decide,
    (loop_clock_wrapped_skips_cycle fullDutyPid fullDutySteam
      { sampleReadings with millisLoop := 500 }
      { sampleMachine with state := { sampleState with lastEvaluation := 4294967000 } }
      (by decide)).2.1,
    (loop_clock_wrapped_skips_cycle fullDutyPid fullDutySteam
      { sampleReadings with millisLoop := 500 }
      { sampleMachine with state := { sampleState with lastEvaluation := 4294967000 } }
      (by decide)).2.2.1⟩

/-! ## Boiler regulation on a faulted sample -/

/-- C20: with a non-zero `tempSensorErrorCode`, `controlBoiler` makes no
call other than reading the steam switch (neither delegate is called and
both keep their internal state), leaves `state.targetTemp` as it was, and
writes only `steamSwitchState` and `boilerPwm` (set to 0); configuration
and store are untouched. -/
theorem controlBoiler_fault_frame (pidC : PIDBoilerController σp)
    (steamC : SteamBoilerController σs) (r : Readings) (m : Machine σp σs)
    (hfault : m.state.tempSensorErrorCode ≠ 0) :
    (controlBoiler pidC steamC r m).trace = m.trace ++ [.steamSwitchIsOn] ∧
    (controlBoiler pidC steamC r m).pidController = m.pidController ∧
    (controlBoiler pidC steamC r m).steamController = m.steamController ∧
    (controlBoiler pidC steamC r m).state.targetTemp = m.state.targetTemp ∧
    (controlBoiler pidC steamC r m).state =
      { m.state with
        steamSwitchState := if r.steamIsOn then .SWITCH_ON else .SWITCH_OFF
        boilerPwm := 0 } ∧
    (controlBoiler pidC steamC r m).config = m.config ∧
    (controlBoiler pidC steamC r m).eeprom = m.eeprom := by
  simp [controlBoiler, Machine.emit, Machine.setState, NO_ERROR, hfault]

/-- C20 at a concrete input: fault code 4 with the steam switch on; the
call counters of both delegates stay at 0 and the target stays 93. -/
theorem controlBoiler_fault_frame_witness :
    ({ sampleMachine with
        state := { sampleState with tempSensorErrorCode := 4 } }).state.tempSensorErrorCode ≠ 0 ∧
    (controlBoiler fullDutyPid fullDutySteam { sampleReadings with steamIsOn := true }
      { sampleMachine with
        state := { sampleState with tempSensorErrorCode := 4 } }).pidController = 0 ∧
    (controlBoiler fullDutyPid fullDutySteam { sampleReadings with steamIsOn := true }
      { sampleMachine with
        state := { sampleState with tempSensorErrorCode := 4 } }).steamController = 0 ∧
    (controlBoiler fullDutyPid fullDutySteam { sampleReadings with steamIsOn := true }
      { sampleMachine with
        state := { sampleState with tempSensorErrorCode := 4 } }).state.targetTemp = 93 :=
  ⟨by decide,
    (controlBoiler_fault_frame fullDutyPid fullDutySteam { sampleReadings with steamIsOn := true }
      { sampleMachine with state := { sampleState with tempSensorErrorCode := 4 } }
      (by decide)).2.1,
    (controlBoiler_fault_frame fullDutyPid fullDutySteam { sampleReadings with steamIsOn := true }
      { sampleMachine with state := { sampleState with tempSensorErrorCode := 4 } }
      (by decide)).2.2.1,
    (controlBoiler_fault_frame fullDutyPid fullDutySteam { sampleReadings with steamIsOn := true }
      { sampleMachine with state := { sampleState with tempSensorErrorCode := 4 } }
      (by decide)).2.2.2.1⟩

end CoffeeMachine
